import Mathlib

/-!
Verification of the dual-mount EFS manager
(`src/applications/satellite/src/dual_mount_manager.py`).

The Python class `DualMountEFSManager` is shallowly embedded: each method
becomes a pure Lean function over an explicit state (`MState`) plus an
environment value describing the outcomes of the I/O operations the method
performs (which writes succeed, which raise, how long each takes).  Time is
modelled in whole ticks (seconds): an asyncio task created by
`asyncio.create_task` needs at least one event-loop iteration before it can
complete, so an outcome carrying `ticks = t` completes at time `t + 1`.
Durations and running means are rationals.
-/

namespace DualMount

/-- JSON scalar or one-level string dictionary, enough to express the
on-disk envelope `json.dumps({"timestamp": ..., "metadata": ..., "data": ...})`
built by `_write_to_mount`.  Metadata values are modelled as strings. -/
inductive JVal where
  | s (v : String)
  | dict (kvs : List (String × String))
deriving DecidableEq, Repr

/-- Content of a file on a mount: either the caller's payload written
verbatim (no metadata), or the JSON object produced by `json.dumps` of the
envelope dictionary.  Storing the parsed JSON object rather than its
serialized text abstracts the `json.dumps`/`json.loads` round trip. -/
inductive Stored where
  | raw (text : String)
  | jsonObj (fields : List (String × JVal))
deriving DecidableEq, Repr

/-- Rendered length of a `JVal`, used only for the `bytes_written` field
(`len(write_data.encode("utf-8"))` in the source). -/
def JVal.size : JVal → Nat
  | .s v => v.utf8ByteSize + 2
  | .dict kvs => 2 + (kvs.map fun kv => kv.1.utf8ByteSize + kv.2.utf8ByteSize + 6).sum

/-- Byte size of the stored text, standing in for the UTF-8 length of the
exact bytes written. -/
def Stored.byteSize : Stored → Nat
  | .raw text => text.utf8ByteSize
  | .jsonObj fields => 2 + (fields.map fun kv => kv.1.utf8ByteSize + kv.2.size + 6).sum

/-- Mirror of the Python dataclass `WriteResult`. -/
structure WriteResult where
  success : Bool
  duration : ℚ
  bytes_written : Nat := 0
  error : Option String := none
deriving DecidableEq, Repr

/-- Mirror of the Python dataclass `HealthStatus`. -/
structure HealthStatus where
  healthy : Bool
  latency_ms : ℚ
  writable : Bool
  readable : Bool
  mount_path : String
  error : Option String := none
deriving DecidableEq, Repr

/-- Mirror of the `self.metrics` dictionary. -/
structure Metrics where
  total_writes : Nat
  successful_writes : Nat
  failed_writes : Nat
  avg_write_time : ℚ
  last_health_check : Option ℚ
deriving DecidableEq, Repr

/-- Metrics as initialized in `__init__`. -/
def Metrics.init : Metrics :=
  { total_writes := 0, successful_writes := 0, failed_writes := 0
    avg_write_time := 0, last_health_check := none }

/-- Environment-derived configuration read in `__init__`. -/
structure Config where
  local_mount : String
  corebank_mount : String
  sync_timeout : Nat
  dual_write_enabled : Bool
  batch_size : Nat
deriving DecidableEq, Repr

/-- Manager state: the two mounts (filename keyed) and the metrics. -/
structure MState where
  local_fs : List (String × Stored)
  corebank_fs : List (String × Stored)
  metrics : Metrics
deriving DecidableEq, Repr

/-- Overwriting file creation, as `open(file_path, "w")` does. -/
def fsPut (fs : List (String × Stored)) (name : String) (v : Stored) :
    List (String × Stored) :=
  (name, v) :: fs.filter fun kv => kv.1 ≠ name

/-- Outcome of one asynchronous I/O block: it either runs to completion or
raises, and in both cases occupies `ticks` whole seconds of event-loop time
before finishing (so it finishes at `ticks + 1`, never at 0: a freshly
created task cannot already be done). -/
inductive IoOutcome where
  | ok (ticks : Nat)
  | exn (ticks : Nat) (msg : String)
deriving DecidableEq, Repr

/-- Completion time of the I/O block, in ticks. -/
def IoOutcome.finish : IoOutcome → Nat
  | .ok t => t + 1
  | .exn t _ => t + 1

/-- Environment of one `_check_mount_health` run: whether each successive
step (write, read, unlink) raises, what the read returns, whether the probe
file exists when the write step raises, and the measured latency. -/
structure ProbeEnv where
  write_err : Option String
  created_on_write_err : Bool
  read_err : Option String
  read_back_matches : Bool
  unlink_err : Option String
  latency_ms : ℚ
deriving DecidableEq, Repr

/-- Shallow embedding of `_check_mount_health` (lines 165-210).  Returns the
`HealthStatus` together with whether the probe file still exists on the
mount when the method returns.  The single `except` block catches any
exception from write, read, the integrity check, or `unlink`, and returns
an unhealthy status; there is no `finally`, so the probe file is removed
only when every step before it succeeded and `unlink` itself succeeds. -/
def check_mount_health (mount_path : String) (env : ProbeEnv) :
    HealthStatus × Bool :=
  let unhealthy : String → HealthStatus := fun e =>
    { healthy := false, latency_ms := 0, writable := false, readable := false
      mount_path := mount_path, error := some e }
  match env.write_err with
  | some e => (unhealthy e, env.created_on_write_err)
  | none =>
    match env.read_err with
    | some e => (unhealthy e, true)
    | none =>
      if ¬ env.read_back_matches then
        (unhealthy "Data integrity check failed", true)
      else
        match env.unlink_err with
        | some e => (unhealthy e, true)
        | none =>
          ({ healthy := true, latency_ms := env.latency_ms, writable := true
             readable := true, mount_path := mount_path, error := none }, false)

/-- Environment of one `health_check` call: the outcome of each concurrent
probe task (`Except` models `return_exceptions=True` surfacing a raised
exception as a value), and the current time for `last_health_check`. -/
structure HealthEnv where
  local_probe : Except String (HealthStatus × Bool)
  corebank_probe : Except String (HealthStatus × Bool)
  now : ℚ
deriving Repr

/-- Conversion applied at lines 108-120: a task that surfaced an exception
is replaced by an all-false `HealthStatus` carrying the exception text. -/
def statusOfProbe (mount_path : String) : Except String (HealthStatus × Bool) → HealthStatus
  | .ok st => st.1
  | .error e =>
    { healthy := false, latency_ms := 0, writable := false, readable := false
      mount_path := mount_path, error := some e }

/-- Aggregate result assembled by `health_check` (the fields of the claims;
the dictionary also carries timestamps and a metrics snapshot). -/
structure HealthReport where
  healthy : Bool
  dual_write_enabled : Bool
  local_efs : HealthStatus
  corebank_efs : HealthStatus
deriving DecidableEq, Repr

/-- Shallow embedding of `health_check` (lines 90-163).  Line 123 computes
`overall_healthy = local_health.healthy and corebank_health.healthy`; the
dual-write flag is reported but takes no part in the aggregation.  The
CloudWatch emission swallows its own exceptions and is omitted. -/
def health_check (cfg : Config) (st : MState) (env : HealthEnv) :
    HealthReport × MState :=
  let local_health := statusOfProbe cfg.local_mount env.local_probe
  let corebank_health := statusOfProbe cfg.corebank_mount env.corebank_probe
  let overall_healthy := local_health.healthy && corebank_health.healthy
  let report : HealthReport :=
    { healthy := overall_healthy, dual_write_enabled := cfg.dual_write_enabled
      local_efs := local_health, corebank_efs := corebank_health }
  (report, { st with metrics := { st.metrics with last_health_check := some env.now } })

/-- Simple JSON rendering of a `JVal` (quoting is elided; the claims never
inspect rendered text, only stored structure). -/
def JVal.render : JVal → String
  | .s v => "\x22" ++ v ++ "\x22"
  | .dict kvs =>
    "\x7b" ++ String.intercalate ", "
      (kvs.map fun kv => "\x22" ++ kv.1 ++ "\x22: \x22" ++ kv.2 ++ "\x22") ++ "\x7d"

/-- Text produced by reading a stored file back: the raw payload, or the
serialized envelope object. -/
def Stored.render : Stored → String
  | .raw text => text
  | .jsonObj fields =>
    "\x7b" ++ String.intercalate ", "
      (fields.map fun kv => "\x22" ++ kv.1 ++ "\x22: " ++ kv.2.render) ++ "\x7d"

/-- Shallow embedding of `_write_to_mount` (lines 294-331).  The payload is
wrapped in the envelope dictionary exactly when `metadata` is truthy, i.e.
non-empty (`None` and `{}` are both modelled as `[]`).  Any exception gives
`WriteResult(success=False, duration=0, error=str(e))` and leaves the mount
unchanged. -/
def write_to_mount (fs : List (String × Stored)) (filename data : String)
    (metadata : List (String × String)) (now : String) (io_out : IoOutcome) :
    WriteResult × List (String × Stored) :=
  match io_out with
  | .exn _ msg => ({ success := false, duration := 0, error := some msg }, fs)
  | .ok t =>
    let stored : Stored :=
      if metadata.isEmpty then .raw data
      else .jsonObj [("timestamp", .s now), ("metadata", .dict metadata),
                     ("data", .s data)]
    ({ success := true, duration := (t + 1 : Nat), bytes_written := stored.byteSize
       error := none },
     fsPut fs filename stored)

/-- Environment of one `write_data` call: the timestamp used for envelopes,
the outcome of each mount's `_write_to_mount` body, whether either task
itself surfaced an exception through `gather` (lines 246-251; only possible
through cancellation, since `_write_to_mount` catches everything — the
write body then never ran), and whether the surrounding `try` block raised
some other exception (lines 284-292). -/
structure WriteEnv where
  now : String
  local_out : IoOutcome
  corebank_out : IoOutcome
  local_task_err : Option String := none
  corebank_task_err : Option String := none
  outer_err : Option String := none
deriving DecidableEq, Repr

/-- Completion time of the `gather` of the two write tasks. -/
def WriteEnv.finish (env : WriteEnv) : Nat :=
  max env.local_out.finish env.corebank_out.finish

/-- Shallow embedding of `write_data` (lines 212-292).  With dual write
disabled only the local write runs and no metric is touched.  Otherwise
`total_writes` is incremented up front; `asyncio.wait_for` raises
`TimeoutError` when the gather has not finished within `sync_timeout`
seconds, in which case both results report the timeout, `failed_writes` is
incremented and `avg_write_time` is left alone (a write that finished
before the deadline has still landed on its mount).  On the normal path
exactly one of `successful_writes`/`failed_writes` is incremented and the
running mean is updated with the wall-clock duration of the gather. -/
def write_data (cfg : Config) (st : MState) (filename data : String)
    (metadata : List (String × String)) (env : WriteEnv) :
    (WriteResult × WriteResult) × MState :=
  if ¬ cfg.dual_write_enabled then
    let (r, fs) := write_to_mount st.local_fs filename data metadata env.now env.local_out
    ((r, { success := false, duration := 0, error := some "Dual write disabled" }),
     { st with local_fs := fs })
  else
    let m1 := { st.metrics with total_writes := st.metrics.total_writes + 1 }
    if cfg.sync_timeout < env.finish then
      let err := "Dual write timeout after " ++ toString cfg.sync_timeout ++ "s"
      let timeout_result : WriteResult :=
        { success := false, duration := (cfg.sync_timeout : ℚ), error := some err }
      let local_fs :=
        if env.local_task_err.isNone ∧ env.local_out.finish ≤ cfg.sync_timeout then
          (write_to_mount st.local_fs filename data metadata env.now env.local_out).2
        else st.local_fs
      let corebank_fs :=
        if env.corebank_task_err.isNone ∧ env.corebank_out.finish ≤ cfg.sync_timeout then
          (write_to_mount st.corebank_fs filename data metadata env.now env.corebank_out).2
        else st.corebank_fs
      ((timeout_result, timeout_result),
       { local_fs := local_fs, corebank_fs := corebank_fs
         metrics := { m1 with failed_writes := m1.failed_writes + 1 } })
    else
      let (local_result, local_fs) :=
        match env.local_task_err with
        | some e =>
          (({ success := false, duration := 0, error := some e } : WriteResult),
           st.local_fs)
        | none => write_to_mount st.local_fs filename data metadata env.now env.local_out
      let (corebank_result, corebank_fs) :=
        match env.corebank_task_err with
        | some e =>
          (({ success := false, duration := 0, error := some e } : WriteResult),
           st.corebank_fs)
        | none => write_to_mount st.corebank_fs filename data metadata env.now env.corebank_out
      match env.outer_err with
      | some e =>
        let err := "Dual write error: " ++ e
        let r : WriteResult := { success := false, duration := 0, error := some err }
        ((r, r),
         { local_fs := local_fs, corebank_fs := corebank_fs
           metrics := { m1 with failed_writes := m1.failed_writes + 1 } })
      | none =>
        let m2 :=
          if local_result.success || corebank_result.success then
            { m1 with successful_writes := m1.successful_writes + 1 }
          else
            { m1 with failed_writes := m1.failed_writes + 1 }
        let n : ℚ := (m2.total_writes : ℚ)
        let m3 :=
          { m2 with avg_write_time :=
              (m2.avg_write_time * (n - 1) + (env.finish : ℚ)) / n }
        ((local_result, corebank_result),
         { local_fs := local_fs, corebank_fs := corebank_fs, metrics := m3 })

/-- Shallow embedding of `read_data` (lines 333-358).  `read_err` is the
exception, if any, raised while opening or reading an existing file.  The
method touches neither mount contents nor metrics. -/
def read_data (st : MState) (filename : String) (from_mount : String)
    (read_err : Option String) :
    (Bool × Option String × Option String) × MState :=
  let pick : Option (List (String × Stored)) :=
    if from_mount = "local" then some st.local_fs
    else if from_mount = "corebank" then some st.corebank_fs
    else none
  match pick with
  | none => ((false, none, some ("Invalid mount: " ++ from_mount)), st)
  | some fs =>
    match fs.lookup filename with
    | none => ((false, none, some ("File not found: " ++ filename)), st)
    | some stored =>
      match read_err with
      | some e => ((false, none, some e), st)
      | none => ((true, some stored.render, none), st)

/-- Gather result of one `write_data` task inside a batch chunk: either the
task surfaced an exception, or it returned its pair of per-destination
success flags (the only part `_process_batch` inspects). -/
inductive ItemOutcome where
  | raised (msg : String)
  | returned (local_ok corebank_ok : Bool)
deriving DecidableEq, Repr

/-- Environment of one `_process_batch` call: whether the chunk's shared
`asyncio.wait_for` deadline elapsed, and otherwise the outcome of each
item's `write_data` task. -/
structure ChunkEnv where
  timed_out : Bool
  items : List ItemOutcome
deriving DecidableEq, Repr

/-- Per-chunk tally returned by `_process_batch`. -/
structure ChunkReport where
  successful : Nat
  failed : Nat
  errors : List String
deriving DecidableEq, Repr

/-- Tally of one gather result (lines 408-416). -/
def tallyItem (acc : ChunkReport) : ItemOutcome → ChunkReport
  | .raised msg =>
    { acc with failed := acc.failed + 1, errors := acc.errors ++ [msg] }
  | .returned local_ok corebank_ok =>
    if local_ok || corebank_ok then
      { acc with successful := acc.successful + 1 }
    else
      { acc with
        failed := acc.failed + 1
        errors := acc.errors ++ ["Both local and corebank writes failed"] }

/-- Shallow embedding of `_process_batch` (lines 390-429).  When the shared
timeout elapses the whole chunk is written off: zero successes, every item
counted failed, and the single error string `"Batch timeout exceeded"`. -/
def process_batch (batch : List (String × String × List (String × String)))
    (env : ChunkEnv) : ChunkReport :=
  if env.timed_out then
    { successful := 0, failed := batch.length, errors := ["Batch timeout exceeded"] }
  else
    env.items.foldl tallyItem { successful := 0, failed := 0, errors := [] }

/-- Splitting `files[i:i + batch_size]` (line 367).  `batch_size = 0` makes
the source `range` raise and is excluded by the guard. -/
def chunksOf (n : Nat) (xs : List (String × String × List (String × String))) :
    List (List (String × String × List (String × String))) :=
  if h : xs = [] ∨ n = 0 then []
  else xs.take n :: chunksOf n (xs.drop n)
termination_by xs.length
decreasing_by
  simp only [List.length_drop]
  push_neg at h
  exact Nat.sub_lt (List.length_pos.mpr h.1) (Nat.pos_of_ne_zero h.2)

/-- Summary accumulated by `batch_write`. -/
structure BatchSummary where
  total_files : Nat
  successful_writes : Nat
  failed_writes : Nat
  batches_processed : Nat
  errors : List String
deriving DecidableEq, Repr

/-- Shallow embedding of `batch_write` (lines 360-388), folding
`_process_batch` over the chunks, one `ChunkEnv` per chunk (wall-clock
duration and throughput are timing fields outside the claims). -/
def batch_write (cfg : Config)
    (files : List (String × String × List (String × String)))
    (envs : List ChunkEnv) : BatchSummary :=
  let batches := chunksOf cfg.batch_size files
  (batches.zip envs).foldl
    (fun acc be =>
      let r := process_batch be.1 be.2
      { acc with
        successful_writes := acc.successful_writes + r.successful
        failed_writes := acc.failed_writes + r.failed
        batches_processed := acc.batches_processed + 1
        errors := acc.errors ++ r.errors })
    { total_files := files.length, successful_writes := 0, failed_writes := 0
      batches_processed := 0, errors := [] }

/-- Relative path of a file under a mount root, as produced by `os.walk` +
`os.path.relpath`: the directory components and the basename. -/
structure RelPath where
  dirs : List String
  base : String
deriving DecidableEq, Repr

/-- Rendering used in sync error strings (`f"{rel_path}: {str(e)}"`). -/
def RelPath.render (p : RelPath) : String :=
  String.intercalate "/" (p.dirs ++ [p.base])

/-- One file of a mount as seen by the sweep: its relative path and its
text content (files are read and written in text mode). -/
structure SyncEntry where
  path : RelPath
  content : String
deriving DecidableEq, Repr

/-- Health-probe temp files are skipped by the sweep (line 444):
`file.startswith("health_check_")`, expressed as a character-list prefix
test so that it evaluates inside the kernel. -/
def isProbeFile (e : SyncEntry) : Bool :=
  "health_check_".data.isPrefixOf e.path.base.data

/-- Whether a mount already holds a file at the given path. -/
def hasPath (fs : List SyncEntry) (p : RelPath) : Bool :=
  fs.any fun x => x.path = p

/-- Loop body of `sync_missing_files` (lines 449-468): for each local file
in `os.walk` order, skip it when the corebank copy exists, otherwise read
it and write it verbatim to corebank (`io_err p = some e` models the
read-or-write exception for that file, collected into the error list).
Returns (synced paths, errors, final corebank contents); the corebank list
is threaded through because copies take effect immediately. -/
def syncGo (io_err : RelPath → Option String) :
    List SyncEntry → List SyncEntry → List RelPath × List String × List SyncEntry
  | [], cb => ([], [], cb)
  | e :: rest, cb =>
    if hasPath cb e.path then syncGo io_err rest cb
    else
      match io_err e.path with
      | some msg =>
        let (synced, errors, cb1) := syncGo io_err rest cb
        (synced, (e.path.render ++ ": " ++ msg) :: errors, cb1)
      | none =>
        let (synced, errors, cb1) := syncGo io_err rest (cb ++ [⟨e.path, e.content⟩])
        (e.path :: synced, errors, cb1)

/-- Report dictionary built at lines 473-480 (duration omitted). -/
structure SyncReport where
  success : Bool
  synced_files : Nat
  total_files : Nat
  files_synced : List RelPath
  errors : List String
deriving DecidableEq, Repr

/-- Local files gathered by the `os.walk` loop at lines 441-446: every
file under the local mount except `health_check_` probe files. -/
def nonProbeFiles (local_fs : List SyncEntry) : List SyncEntry :=
  local_fs.filter fun e => ¬ isProbeFile e

/-- Shallow embedding of `sync_missing_files` (lines 431-492): lists every
local file except probe files, copies each one missing from corebank, and
reports `success` exactly when the error list stayed empty. -/
def sync_missing_files (local_fs corebank_fs : List SyncEntry)
    (io_err : RelPath → Option String) : SyncReport × List SyncEntry :=
  let files := nonProbeFiles local_fs
  let (synced, errors, cb) := syncGo io_err files corebank_fs
  ({ success := errors.length = 0, synced_files := synced.length
     total_files := files.length, files_synced := synced, errors := errors }, cb)

/-! Claim theorems. -/

/-- Concrete healthy local probe status used in the C1 counterexample. -/
def healthyLocalStatus : HealthStatus :=
  { healthy := true, latency_ms := 1, writable := true, readable := true
    mount_path := "/mnt/efs-local", error := none }

/-- Concrete broken corebank probe status used in the C1 counterexample. -/
def brokenCorebankStatus : HealthStatus :=
  { healthy := false, latency_ms := 0, writable := false, readable := false
    mount_path := "/mnt/efs-corebank", error := some "mount broken" }

/-- C1, counterexample: with dual-write disabled, a healthy local probe and
an unhealthy corebank probe, `health_check` reports the aggregate as
unhealthy — the claim asserts the aggregate healthy flag would be true in
every such configuration. -/
theorem health_check_dual_write_disabled_cex :
    (health_check
      { local_mount := "/mnt/efs-local", corebank_mount := "/mnt/efs-corebank"
        sync_timeout := 60, dual_write_enabled := false, batch_size := 100 }
      { local_fs := [], corebank_fs := [], metrics := Metrics.init }
      { local_probe := .ok (healthyLocalStatus, false)
        corebank_probe := .ok (brokenCorebankStatus, true)
        now := 1 }).1.healthy = false := by
  decide

/-- C1, amended: `health_check` reports the aggregate as healthy exactly
when both per-mount statuses it reports are healthy; the dual-write flag
plays no part in the aggregation (flipping it never changes the aggregate
flag, which line 123 of the source computes as `local and corebank`). -/
theorem health_check_aggregate_amended (cfg : Config) (st : MState) (env : HealthEnv)
    (b : Bool) :
    (health_check cfg st env).1.healthy =
      ((health_check cfg st env).1.local_efs.healthy &&
        (health_check cfg st env).1.corebank_efs.healthy)
    ∧ (health_check { cfg with dual_write_enabled := b } st env).1.healthy =
        (health_check cfg st env).1.healthy := by
  constructor <;> rfl

/-- C2, counterexample: writing content `"hello"` with the non-empty
metadata `{"k": "1"}` stores a JSON object whose keys are `timestamp`,
`metadata` and `data`; it has no `content` field at all (the payload sits
under the key `data`), so the stored bytes do not parse as an envelope
whose `content` field equals the input content. -/
theorem write_envelope_content_key_cex :
    (write_to_mount [] "tx.json" "hello" [("k", "1")] "2026-01-01T00:00:00"
        (.ok 0)).2.lookup "tx.json" =
      some (.jsonObj [("timestamp", .s "2026-01-01T00:00:00"),
                      ("metadata", .dict [("k", "1")]), ("data", .s "hello")])
    ∧ [("timestamp", JVal.s "2026-01-01T00:00:00"), ("metadata", .dict [("k", "1")]),
       ("data", .s "hello")].lookup "content" = none
    ∧ [("timestamp", JVal.s "2026-01-01T00:00:00"), ("metadata", .dict [("k", "1")]),
       ("data", .s "hello")].lookup "data" = some (.s "hello") := by
  decide

/-- C2, amended: for every write with non-empty metadata the stored value
is the JSON envelope `{timestamp, metadata, data}` whose `metadata` field
equals the input metadata and whose `data` field (not `content`) equals the
input content; for every write with empty or omitted metadata the stored
value is the input content verbatim. -/
theorem write_to_mount_envelope_amended (fs : List (String × Stored))
    (filename data now k v : String) (md : List (String × String)) (t : Nat) :
    (write_to_mount fs filename data ((k, v) :: md) now (.ok t)).2.lookup filename =
      some (.jsonObj [("timestamp", .s now), ("metadata", .dict ((k, v) :: md)),
                      ("data", .s data)])
    ∧ (write_to_mount fs filename data [] now (.ok t)).2.lookup filename =
      some (.raw data) := by
  constructor <;> simp [write_to_mount, fsPut, List.lookup]

/-- C4, counterexample: a probe run in which write, read and the integrity
check all succeed but `unlink` raises.  The probe file was created, yet it
still exists when the probe returns, and the returned status is unhealthy
with the deletion exception text — the claim asserts the file would be
deleted and the status would still reflect the successful write/read. -/
theorem check_mount_health_unlink_cex :
    check_mount_health "/mnt/efs-local"
      { write_err := none, created_on_write_err := false, read_err := none
        read_back_matches := true, unlink_err := some "Permission denied"
        latency_ms := 5 } =
      ({ healthy := false, latency_ms := 0, writable := false, readable := false
         mount_path := "/mnt/efs-local", error := some "Permission denied" }, true) := by
  decide

/-- C4, amended: the probe file is removed only on the fully successful
path — whenever the probe reports healthy the file is gone, while on every
failure path after creation (read error, integrity mismatch, or unlink
error) the file is left in place; and a failure of the deletion step alone
is reported as an unhealthy probe carrying the deletion exception text,
not as a healthy probe. -/
theorem check_mount_health_cleanup_amended (path : String) (env : ProbeEnv) :
    ((check_mount_health path env).1.healthy = true →
      (check_mount_health path env).2 = false)
    ∧ (env.write_err = none → (check_mount_health path env).1.healthy = false →
        (check_mount_health path env).2 = true)
    ∧ (∀ e, env.write_err = none → env.read_err = none →
        env.read_back_matches = true → env.unlink_err = some e →
        check_mount_health path env =
          ({ healthy := false, latency_ms := 0, writable := false, readable := false
             mount_path := path, error := some e }, true)) := by
  obtain ⟨w, c, r, m, u, l⟩ := env
  cases w <;> cases r <;> cases m <;> cases u <;>
    simp [check_mount_health]

/-- C4, witness: the amended theorem applied to a concrete failing-unlink
probe run and to a concrete fully-successful run. -/
theorem check_mount_health_cleanup_amended_witness :
    check_mount_health "/p"
      { write_err := none, created_on_write_err := false, read_err := none
        read_back_matches := true, unlink_err := some "boom", latency_ms := 2 } =
      ({ healthy := false, latency_ms := 0, writable := false, readable := false
         mount_path := "/p", error := some "boom" }, true)
    ∧ (check_mount_health "/p"
        { write_err := none, created_on_write_err := false, read_err := none
          read_back_matches := true, unlink_err := none, latency_ms := 2 }).2 = false := by
  constructor
  · exact (check_mount_health_cleanup_amended "/p" _).2.2 "boom" rfl rfl rfl rfl
  · exact (check_mount_health_cleanup_amended "/p" _).1 (by decide)

/-- The gather of the two freshly created write tasks never finishes at
time 0: each task needs at least one event-loop tick. -/
theorem WriteEnv.one_le_finish (env : WriteEnv) : 1 ≤ env.finish := by
  unfold WriteEnv.finish IoOutcome.finish
  cases env.local_out <;> cases env.corebank_out <;> simp

/-- C5: when dual-write is enabled and the shared deadline elapses before
both destination writes complete, `write_data` returns two results, each
with `success = false` and the error `"Dual write timeout after Ns"` for
the configured `sync_timeout` `N`; and with `sync_timeout = 0` every
dual-write-enabled call times out this way, because the gather can never
already be finished at time 0. -/
theorem write_data_timeout (cfg : Config) (st : MState) (filename data : String)
    (metadata : List (String × String)) (env : WriteEnv)
    (henabled : cfg.dual_write_enabled = true) :
    (cfg.sync_timeout < env.finish →
      (write_data cfg st filename data metadata env).1 =
        ({ success := false, duration := (cfg.sync_timeout : ℚ)
           error := some ("Dual write timeout after " ++ toString cfg.sync_timeout ++ "s") },
         { success := false, duration := (cfg.sync_timeout : ℚ)
           error := some ("Dual write timeout after " ++ toString cfg.sync_timeout ++ "s") }))
    ∧ (cfg.sync_timeout = 0 → cfg.sync_timeout < env.finish) := by
  constructor
  · intro ht
    simp [write_data, henabled, ht]
  · intro h0
    rw [h0]
    exact lt_of_lt_of_le Nat.zero_lt_one env.one_le_finish

/-- C5, witness: a dual-write call with `sync_timeout = 0` and instantly
completing write bodies still reports the timeout error on both
destinations. -/
theorem write_data_timeout_witness :
    (write_data
      { local_mount := "L", corebank_mount := "C", sync_timeout := 0
        dual_write_enabled := true, batch_size := 100 }
      { local_fs := [], corebank_fs := [], metrics := Metrics.init }
      "f.txt" "payload" []
      { now := "ts", local_out := .ok 0, corebank_out := .ok 0 }).1 =
      ({ success := false, duration := 0
         error := some "Dual write timeout after 0s" },
       { success := false, duration := 0
         error := some "Dual write timeout after 0s" }) := by
  have h := write_data_timeout
    { local_mount := "L", corebank_mount := "C", sync_timeout := 0
      dual_write_enabled := true, batch_size := 100 }
    { local_fs := [], corebank_fs := [], metrics := Metrics.init }
    "f.txt" "payload" []
    { now := "ts", local_out := .ok 0, corebank_out := .ok 0 } rfl
  simpa using h.1 (h.2 rfl)

/-- C9: exceptions stay inside structured results.  An I/O exception inside
a single-mount write yields `WriteResult(success=false, duration=0,
error=str(e))` and leaves the mount untouched, never raising; a call with
dual-write disabled still returns a complete pair whose corebank slot is
the `"Dual write disabled"` marker; and an unexpected exception inside the
dual-write `try` block is returned as a pair of `"Dual write error: ..."`
results instead of propagating.  Totality of the Lean functions embeds the
absence of any raising path. -/
theorem write_errors_structured :
    (∀ (fs : List (String × Stored)) (filename data now msg : String)
        (metadata : List (String × String)) (t : Nat),
      write_to_mount fs filename data metadata now (.exn t msg) =
        ({ success := false, duration := 0, bytes_written := 0, error := some msg }, fs))
    ∧ (∀ (cfg : Config) (st : MState) (filename data : String)
        (metadata : List (String × String)) (env : WriteEnv),
      (write_data { cfg with dual_write_enabled := false } st filename data metadata
          env).1.2 =
        { success := false, duration := 0, error := some "Dual write disabled" })
    ∧ (∀ (cfg : Config) (st : MState) (filename data e : String)
        (metadata : List (String × String)) (env : WriteEnv),
      (write_data { cfg with dual_write_enabled := true, sync_timeout := env.finish }
          st filename data metadata { env with outer_err := some e }).1 =
        ({ success := false, duration := 0, error := some ("Dual write error: " ++ e) },
         { success := false, duration := 0, error := some ("Dual write error: " ++ e) })) := by
  refine ⟨fun fs filename data now msg metadata t => rfl, fun cfg st filename data metadata env => rfl, ?_⟩
  intro cfg st filename data e metadata env
  have hfin : ({ env with outer_err := some e } : WriteEnv).finish = env.finish := rfl
  simp only [write_data, hfin]
  have : ¬ env.finish < env.finish := lt_irrefl _
  simp only [this, if_false]
  cases henv : env.local_task_err <;> cases henv2 : env.corebank_task_err <;>
    simp [henv, henv2]

/-- C10: `read_data` never raises and reports structured errors — any mount
name other than `"local"` or `"corebank"` yields
`(False, None, "Invalid mount: ...")`, a filename absent from the selected
mount yields `(False, None, "File not found: ...")`, and the returned
state (metrics included) is always exactly the input state. -/
theorem read_data_errors (st : MState) (filename from_mount : String)
    (read_err : Option String) :
    (from_mount ≠ "local" → from_mount ≠ "corebank" →
      read_data st filename from_mount read_err =
        ((false, none, some ("Invalid mount: " ++ from_mount)), st))
    ∧ (st.local_fs.lookup filename = none →
      read_data st filename "local" read_err =
        ((false, none, some ("File not found: " ++ filename)), st))
    ∧ (st.corebank_fs.lookup filename = none →
      read_data st filename "corebank" read_err =
        ((false, none, some ("File not found: " ++ filename)), st))
    ∧ (read_data st filename from_mount read_err).2 = st := by
  refine ⟨?_, ?_, ?_, ?_⟩
  · intro h1 h2
    simp [read_data, h1, h2]
  · intro h
    simp [read_data, h]
  · intro h
    simp [read_data, h]
  · unfold read_data
    dsimp only
    repeat' split
    all_goals rfl

/-- C10, witness: the structured errors of `read_data` at concrete inputs
— an invalid mount name and a missing file — with the state returned
unchanged. -/
theorem read_data_errors_witness :
    (read_data { local_fs := [], corebank_fs := [], metrics := Metrics.init }
        "a.txt" "remote" none =
      ((false, none, some "Invalid mount: remote"),
       { local_fs := [], corebank_fs := [], metrics := Metrics.init }))
    ∧ (read_data { local_fs := [], corebank_fs := [], metrics := Metrics.init }
        "a.txt" "local" none =
      ((false, none, some "File not found: a.txt"),
       { local_fs := [], corebank_fs := [], metrics := Metrics.init })) := by
  constructor
  · exact (read_data_errors _ "a.txt" "remote" none).1 (by decide) (by decide)
  · exact (read_data_errors _ "a.txt" "local" none).2.1 rfl

/-- C8: when a chunk's shared deadline elapses, `_process_batch` credits
zero successes for the chunk, counts every one of its items as failed, and
reports the single error `"Batch timeout exceeded"`, regardless of the
outcomes individual items may have reached. -/
theorem process_batch_timeout
    (batch : List (String × String × List (String × String))) (env : ChunkEnv)
    (h : env.timed_out = true) :
    process_batch batch env =
      { successful := 0, failed := batch.length, errors := ["Batch timeout exceeded"] } := by
  simp [process_batch, h]

/-- C8, witness: a timed-out chunk of two items, one of which had already
completed on both destinations, still reports zero successes, two failures
and the single timeout error. -/
theorem process_batch_timeout_witness :
    process_batch [("a.txt", "x", []), ("b.txt", "y", [])]
      { timed_out := true, items := [.returned true true, .raised "cancelled"] } =
      { successful := 0, failed := 2, errors := ["Batch timeout exceeded"] } := by
  have h := process_batch_timeout [("a.txt", "x", []), ("b.txt", "y", [])]
    { timed_out := true, items := [.returned true true, .raised "cancelled"] } rfl
  simpa using h

/-- C3, counterexample: a `write_data` call with dual-write disabled leaves
the metrics exactly as they were — `total_writes` stays at 0 instead of
being incremented, contradicting "every call to writeData increments
totalWrites"; and an enabled call that hits the shared deadline
(`sync_timeout = 0`) leaves `avg_write_time` at 0 even though the
incremental-mean formula over the 1-second wall-clock duration would give
`(0*(1-1)+1)/1 = 1`, contradicting "every call updates avgWriteTime by
the incremental-mean formula". -/
theorem write_data_metrics_disabled_cex :
    (write_data
      { local_mount := "L", corebank_mount := "C", sync_timeout := 60
        dual_write_enabled := false, batch_size := 100 }
      { local_fs := [], corebank_fs := [], metrics := Metrics.init }
      "f.txt" "payload" []
      { now := "ts", local_out := .ok 0, corebank_out := .ok 0 }).2.metrics =
      Metrics.init
    ∧ (write_data
      { local_mount := "L", corebank_mount := "C", sync_timeout := 0
        dual_write_enabled := true, batch_size := 100 }
      { local_fs := [], corebank_fs := [], metrics := Metrics.init }
      "f.txt" "payload" []
      { now := "ts", local_out := .ok 0, corebank_out := .ok 0 }).2.metrics.avg_write_time = 0
    ∧ (write_data
      { local_mount := "L", corebank_mount := "C", sync_timeout := 0
        dual_write_enabled := true, batch_size := 100 }
      { local_fs := [], corebank_fs := [], metrics := Metrics.init }
      "f.txt" "payload" []
      { now := "ts", local_out := .ok 0, corebank_out := .ok 0 }).2.metrics.total_writes = 1 := by
  refine ⟨by decide, by decide, by decide⟩

/-- C3, amended: only calls with dual-write enabled update the metrics.
Such a call always increments `total_writes` and exactly one of
`successful_writes` (when at least one reported destination succeeded) or
`failed_writes` (otherwise); `avg_write_time` is updated by the
incremental-mean formula over the wall-clock duration of the whole
dual-write attempt only on the path where the gather finishes within the
deadline and no unexpected exception occurs — on the timeout path and on
the unexpected-exception path `failed_writes` is incremented but the
running mean is left unchanged.  A call with dual-write disabled leaves
the metrics untouched. -/
theorem write_data_metrics_amended (cfg : Config) (st : MState)
    (filename data : String) (metadata : List (String × String)) (env : WriteEnv) :
    (write_data { cfg with dual_write_enabled := false } st filename data metadata
        env).2.metrics = st.metrics
    ∧ (cfg.sync_timeout < env.finish →
      (write_data { cfg with dual_write_enabled := true } st filename data metadata
          env).2.metrics =
        { st.metrics with
            total_writes := st.metrics.total_writes + 1
            failed_writes := st.metrics.failed_writes + 1 })
    ∧ (∀ e, ¬ cfg.sync_timeout < env.finish → env.outer_err = some e →
      (write_data { cfg with dual_write_enabled := true } st filename data metadata
          env).2.metrics =
        { st.metrics with
            total_writes := st.metrics.total_writes + 1
            failed_writes := st.metrics.failed_writes + 1 })
    ∧ (¬ cfg.sync_timeout < env.finish → env.outer_err = none →
      (write_data { cfg with dual_write_enabled := true } st filename data metadata
          env).2.metrics =
        { total_writes := st.metrics.total_writes + 1
          successful_writes := st.metrics.successful_writes +
            (if (write_data { cfg with dual_write_enabled := true } st filename data
                  metadata env).1.1.success ||
                (write_data { cfg with dual_write_enabled := true } st filename data
                  metadata env).1.2.success then 1 else 0)
          failed_writes := st.metrics.failed_writes +
            (if (write_data { cfg with dual_write_enabled := true } st filename data
                  metadata env).1.1.success ||
                (write_data { cfg with dual_write_enabled := true } st filename data
                  metadata env).1.2.success then 0 else 1)
          avg_write_time :=
            (st.metrics.avg_write_time * (((st.metrics.total_writes + 1 : Nat) : ℚ) - 1) +
              (env.finish : ℚ)) / ((st.metrics.total_writes + 1 : Nat) : ℚ)
          last_health_check := st.metrics.last_health_check }) := by
  refine ⟨rfl, ?_, ?_, ?_⟩
  · intro ht
    simp [write_data, ht]
  · intro e ht ho
    simp [write_data, ht, ho]
  · intro ht ho
    simp only [write_data, ht, ho]
    cases hl : env.local_task_err <;> cases hc : env.corebank_task_err <;>
      cases hlo : env.local_out <;> cases hco : env.corebank_out <;>
      simp_all [write_to_mount]

/-- C3, witness: the amended theorem applied to a concrete enabled call
whose gather finishes within the deadline: `total_writes` becomes 1,
`successful_writes` becomes 1, and the running mean becomes the 1-second
wall-clock duration. -/
theorem write_data_metrics_amended_witness :
    (write_data
      { local_mount := "L", corebank_mount := "C", sync_timeout := 60
        dual_write_enabled := true, batch_size := 100 }
      { local_fs := [], corebank_fs := [], metrics := Metrics.init }
      "f.txt" "payload" []
      { now := "ts", local_out := .ok 0, corebank_out := .ok 0 }).2.metrics.total_writes = 1
    ∧ (write_data
      { local_mount := "L", corebank_mount := "C", sync_timeout := 60
        dual_write_enabled := true, batch_size := 100 }
      { local_fs := [], corebank_fs := [], metrics := Metrics.init }
      "f.txt" "payload" []
      { now := "ts", local_out := .ok 0, corebank_out := .ok 0 }).2.metrics.successful_writes = 1
    ∧ (write_data
      { local_mount := "L", corebank_mount := "C", sync_timeout := 60
        dual_write_enabled := true, batch_size := 100 }
      { local_fs := [], corebank_fs := [], metrics := Metrics.init }
      "f.txt" "payload" []
      { now := "ts", local_out := .ok 0, corebank_out := .ok 0 }).2.metrics.avg_write_time = 1 := by
  have h := (write_data_metrics_amended
    { local_mount := "L", corebank_mount := "C", sync_timeout := 60
      dual_write_enabled := true, batch_size := 100 }
    { local_fs := [], corebank_fs := [], metrics := Metrics.init }
    "f.txt" "payload" []
    { now := "ts", local_out := .ok 0, corebank_out := .ok 0 }).2.2.2
    (by decide) rfl
  refine ⟨?_, ?_, ?_⟩
  · rw [h]
    decide
  · rw [h]
    decide
  · rw [h]
    simp [WriteEnv.finish, IoOutcome.finish, Metrics.init]

/-- Files the sweep should copy, per the spec: considered files whose path
is absent from corebank and whose read+write round trip does not fail. -/
def copiedFiles (cb : List SyncEntry) (io_err : RelPath → Option String)
    (files : List SyncEntry) : List SyncEntry :=
  files.filter fun e => !hasPath cb e.path && (io_err e.path).isNone

/-- Files whose copy attempt fails, per the spec: absent from corebank but
with a failing read or write. -/
def failedEntries (cb : List SyncEntry) (io_err : RelPath → Option String)
    (files : List SyncEntry) : List SyncEntry :=
  files.filter fun e => !hasPath cb e.path && (io_err e.path).isSome

/-- Error string recorded for a failed copy. -/
def syncErrMsg (io_err : RelPath → Option String) (e : SyncEntry) : String :=
  e.path.render ++ ": " ++ (io_err e.path).getD ""

/-- Characterization of the sweep loop: over files with pairwise distinct
paths (as `os.walk` yields them), starting from a corebank state agreeing
with `cb0` on all those paths, the loop syncs exactly the `copiedFiles` of
`cb0` in order, collects exactly the error strings of `failedEntries`, and
appends the copied entries verbatim. -/
theorem syncGo_eq (io_err : RelPath → Option String) (cb0 : List SyncEntry) :
    ∀ (files cb : List SyncEntry),
      (files.map fun e => e.path).Nodup →
      (∀ f ∈ files, hasPath cb f.path = hasPath cb0 f.path) →
      syncGo io_err files cb =
        (((copiedFiles cb0 io_err files).map fun e => e.path),
         (failedEntries cb0 io_err files).map (syncErrMsg io_err),
         cb ++ ((copiedFiles cb0 io_err files).map
           fun e => (⟨e.path, e.content⟩ : SyncEntry))) := by
  intro files
  induction files with
  | nil =>
    intro cb _ _
    simp [syncGo, copiedFiles, failedEntries]
  | cons e rest ih =>
    intro cb hnd hhp
    have hpe : hasPath cb e.path = hasPath cb0 e.path :=
      hhp e (List.mem_cons_self e rest)
    have hnd' : (rest.map fun x => x.path).Nodup := (List.nodup_cons.mp hnd).2
    have hengt : e.path ∉ rest.map fun x => x.path := (List.nodup_cons.mp hnd).1
    cases hin : hasPath cb0 e.path with
    | true =>
      have hrec := ih cb hnd' fun f hf => hhp f (List.mem_cons_of_mem e hf)
      simp [syncGo, hpe, hin, hrec, copiedFiles, failedEntries]
    | false =>
      cases hio : io_err e.path with
      | some msg =>
        have hrec := ih cb hnd' fun f hf => hhp f (List.mem_cons_of_mem e hf)
        simp [syncGo, hpe, hin, hio, hrec, copiedFiles, failedEntries, syncErrMsg]
      | none =>
        have hhp' : ∀ f ∈ rest,
            hasPath (cb ++ [(⟨e.path, e.content⟩ : SyncEntry)]) f.path =
              hasPath cb0 f.path := by
          intro f hf
          have hne : e.path ≠ f.path := by
            intro hcontra
            exact hengt (hcontra ▸ List.mem_map_of_mem (fun x => x.path) hf)
          unfold hasPath
          rw [List.any_append]
          have h2 : [(⟨e.path, e.content⟩ : SyncEntry)].any
              (fun x => x.path = f.path) = false := by
            simp [hne]
          rw [h2, Bool.or_false]
          exact hhp f (List.mem_cons_of_mem e hf)
        have hrec := ih (cb ++ [⟨e.path, e.content⟩]) hnd' hhp'
        simp [syncGo, hpe, hin, hio, hrec, copiedFiles, failedEntries,
          List.append_assoc]

/-- C6: `sync_missing_files`, run on a local listing with pairwise distinct
paths, copies to the corebank mount exactly the non-probe local files
whose corebank path does not exist, each with its content verbatim;
per-file failures land in the error list without stopping the remaining
files (whose copies still appear); and the reported `success` flag is true
exactly when the error list is empty. -/
theorem sync_missing_files_spec (local_fs corebank_fs : List SyncEntry)
    (io_err : RelPath → Option String)
    (hnd : ((nonProbeFiles local_fs).map fun e => e.path).Nodup) :
    (sync_missing_files local_fs corebank_fs io_err).2 =
      corebank_fs ++
        ((copiedFiles corebank_fs io_err (nonProbeFiles local_fs)).map
          fun e => (⟨e.path, e.content⟩ : SyncEntry))
    ∧ (sync_missing_files local_fs corebank_fs io_err).1.files_synced =
        ((copiedFiles corebank_fs io_err (nonProbeFiles local_fs)).map
          fun e => e.path)
    ∧ (sync_missing_files local_fs corebank_fs io_err).1.errors =
        (failedEntries corebank_fs io_err (nonProbeFiles local_fs)).map
          (syncErrMsg io_err)
    ∧ ((sync_missing_files local_fs corebank_fs io_err).1.success = true ↔
        (sync_missing_files local_fs corebank_fs io_err).1.errors = [])
    ∧ (sync_missing_files local_fs corebank_fs io_err).1.synced_files =
        (copiedFiles corebank_fs io_err (nonProbeFiles local_fs)).length
    ∧ (sync_missing_files local_fs corebank_fs io_err).1.total_files =
        (nonProbeFiles local_fs).length := by
  have hgo := syncGo_eq io_err corebank_fs (nonProbeFiles local_fs) corebank_fs hnd
    fun f _ => rfl
  refine ⟨?_, ?_, ?_, ?_, ?_, ?_⟩ <;>
    simp [sync_missing_files, hgo, List.length_eq_zero]

/-- C6, witness: three local files — one already on corebank, one probe
temp file, one genuinely missing — with no I/O failure: exactly the
missing non-probe file is copied verbatim and the sweep succeeds. -/
theorem sync_missing_files_spec_witness :
    (sync_missing_files
      [⟨⟨[], "a.txt"⟩, "hello"⟩, ⟨⟨[], "health_check_123.tmp"⟩, "probe"⟩,
       ⟨⟨["sub"], "b.txt"⟩, "world"⟩]
      [⟨⟨[], "a.txt"⟩, "hello"⟩] (fun _ => none)).2 =
      [⟨⟨[], "a.txt"⟩, "hello"⟩, ⟨⟨["sub"], "b.txt"⟩, "world"⟩]
    ∧ (sync_missing_files
      [⟨⟨[], "a.txt"⟩, "hello"⟩, ⟨⟨[], "health_check_123.tmp"⟩, "probe"⟩,
       ⟨⟨["sub"], "b.txt"⟩, "world"⟩]
      [⟨⟨[], "a.txt"⟩, "hello"⟩] (fun _ => none)).1.files_synced =
      [⟨["sub"], "b.txt"⟩] := by
  have h := sync_missing_files_spec
    [⟨⟨[], "a.txt"⟩, "hello"⟩, ⟨⟨[], "health_check_123.tmp"⟩, "probe"⟩,
     ⟨⟨["sub"], "b.txt"⟩, "world"⟩]
    [⟨⟨[], "a.txt"⟩, "hello"⟩] (fun _ => none) (by decide)
  constructor
  · rw [h.1]
    decide
  · rw [h.2.1]
    decide

/-- Presence of a path on the corebank mount is preserved by the sweep
loop: the loop only ever appends files. -/
theorem syncGo_mono (io_err : RelPath → Option String) (files : List SyncEntry) :
    ∀ (cb : List SyncEntry) (p : RelPath), hasPath cb p = true →
      hasPath (syncGo io_err files cb).2.2 p = true := by
  induction files with
  | nil =>
    intro cb p h
    simpa [syncGo] using h
  | cons e rest ih =>
    intro cb p h
    cases hin : hasPath cb e.path with
    | true =>
      simpa [syncGo, hin] using ih cb p h
    | false =>
      cases hio : io_err e.path with
      | some msg =>
        simpa [syncGo, hin, hio] using ih cb p h
      | none =>
        have h' : hasPath (cb ++ [(⟨e.path, e.content⟩ : SyncEntry)]) p = true := by
          unfold hasPath at h ⊢
          rw [List.any_append, h, Bool.true_or]
        simpa [syncGo, hin, hio] using ih (cb ++ [⟨e.path, e.content⟩]) p h'

/-- When the sweep loop finishes without a single error, every file it
considered is present on the resulting corebank mount (it was either
already there or has just been copied). -/
theorem syncGo_errors_nil_covers (io_err : RelPath → Option String)
    (files : List SyncEntry) :
    ∀ (cb : List SyncEntry), (syncGo io_err files cb).2.1 = [] →
      ∀ f ∈ files, hasPath (syncGo io_err files cb).2.2 f.path = true := by
  induction files with
  | nil =>
    intro cb _ f hf
    cases hf
  | cons e rest ih =>
    intro cb herr f hf
    cases hin : hasPath cb e.path with
    | true =>
      have herr' : (syncGo io_err rest cb).2.1 = [] := by
        simpa [syncGo, hin] using herr
      rcases List.mem_cons.mp hf with rfl | hf
      · simpa [syncGo, hin] using syncGo_mono io_err rest cb f.path hin
      · simpa [syncGo, hin] using ih cb herr' f hf
    | false =>
      cases hio : io_err e.path with
      | some msg =>
        exfalso
        have hcons : (e.path.render ++ ": " ++ msg) :: (syncGo io_err rest cb).2.1 = [] := by
          simpa [syncGo, hin, hio] using herr
        cases hcons
      | none =>
        have herr' :
            (syncGo io_err rest (cb ++ [(⟨e.path, e.content⟩ : SyncEntry)])).2.1 = [] := by
          simpa [syncGo, hin, hio] using herr
        rcases List.mem_cons.mp hf with rfl | hf
        · have hp : hasPath (cb ++ [(⟨f.path, f.content⟩ : SyncEntry)]) f.path = true := by
            simp [hasPath, List.any_append]
          simpa [syncGo, hin, hio] using
            syncGo_mono io_err rest (cb ++ [⟨f.path, f.content⟩]) f.path hp
        · simpa [syncGo, hin, hio] using
            ih (cb ++ [⟨e.path, e.content⟩]) herr' f hf

/-- A sweep loop over files that are all already present does nothing. -/
theorem syncGo_all_present (io_err : RelPath → Option String)
    (files : List SyncEntry) :
    ∀ (cb : List SyncEntry), (∀ f ∈ files, hasPath cb f.path = true) →
      syncGo io_err files cb = ([], [], cb) := by
  induction files with
  | nil =>
    intro cb _
    rfl
  | cons e rest ih =>
    intro cb hall
    have hin : hasPath cb e.path = true := hall e (List.mem_cons_self e rest)
    have hrec := ih cb fun f hf => hall f (List.mem_cons_of_mem e hf)
    simp [syncGo, hin, hrec]

/-- C7: `sync_missing_files` is idempotent — after one successful run, a
second run with unchanged local contents (under any I/O behaviour)
synchronizes zero additional files, reports success, and leaves the
corebank mount exactly as the first run left it. -/
theorem sync_missing_files_idempotent (local_fs corebank_fs : List SyncEntry)
    (io1 io2 : RelPath → Option String)
    (h : (sync_missing_files local_fs corebank_fs io1).1.success = true) :
    (sync_missing_files local_fs (sync_missing_files local_fs corebank_fs io1).2
        io2).1.synced_files = 0
    ∧ (sync_missing_files local_fs (sync_missing_files local_fs corebank_fs io1).2
        io2).1.success = true
    ∧ (sync_missing_files local_fs (sync_missing_files local_fs corebank_fs io1).2
        io2).2 = (sync_missing_files local_fs corebank_fs io1).2 := by
  have herr : (syncGo io1 (nonProbeFiles local_fs) corebank_fs).2.1 = [] :=
    List.length_eq_zero.mp (of_decide_eq_true h)
  have hcov := syncGo_errors_nil_covers io1 (nonProbeFiles local_fs) corebank_fs herr
  have hrun2 := syncGo_all_present io2 (nonProbeFiles local_fs)
    (syncGo io1 (nonProbeFiles local_fs) corebank_fs).2.2 hcov
  refine ⟨?_, ?_, ?_⟩ <;>
    simp [sync_missing_files, hrun2]

/-- C7, witness: a successful first sweep of one local file onto an empty
corebank mount, after which a second sweep syncs nothing and succeeds. -/
theorem sync_missing_files_idempotent_witness :
    (sync_missing_files [⟨⟨[], "a.txt"⟩, "hello"⟩]
      (sync_missing_files [⟨⟨[], "a.txt"⟩, "hello"⟩] [] (fun _ => none)).2
      (fun _ => none)).1.synced_files = 0
    ∧ (sync_missing_files [⟨⟨[], "a.txt"⟩, "hello"⟩]
      (sync_missing_files [⟨⟨[], "a.txt"⟩, "hello"⟩] [] (fun _ => none)).2
      (fun _ => none)).1.success = true := by
  have h := sync_missing_files_idempotent [⟨⟨[], "a.txt"⟩, "hello"⟩] []
    (fun _ => none) (fun _ => none) (by decide)
  exact ⟨h.1, h.2.1⟩

end DualMount
